import Mathlib

/-!
Verification of the `stevedore` API resource layer
(`src/api/stevedore/api/resources.py`): a shallow embedding of the
`TaskResource` handlers and of the external collaborators they call, with
theorems about the request-handling contract.

External collaborators (the `models`, `utils`, `config` and `api.utils`
modules are not part of the sources) are modelled from the spec where their
behaviour decides a claim, and otherwise abstracted as oracles: the
handlers cannot control whether the database session provider, the
persistence layer or the queue client raise, so those outcomes are inputs.
-/

namespace Stevedore

/-- HTTP status codes as natural numbers (`falcon.HTTP_200` and friends). -/
abbrev Status := Nat

/-- A Task row: `id` is server-assigned; the key fields `repository` and
`name` are optional because the handler passes `parsed_json.get(..., None)`,
so a missing payload field arrives as `none`. -/
structure Task where
  id : Nat
  repository : Option String
  name : Option String
deriving Repr, DecidableEq

/-- The task table. -/
abbrev Store := List Task

/-- The database: the task table plus the next fresh server-assigned id. -/
structure DB where
  store : Store
  nextId : Nat
deriving Repr, DecidableEq

/-- Lookup of a (repository, name) key in the store. -/
def findTask (store : Store) (r n : String) : Option Task :=
  store.find? (fun t => t.repository == some r && t.name == some n)

/-- Modelled from the spec: `Task.create_unique_task` (the `models` module is
not among the sources). Create-if-absent on the (repository, name) key:
returns the existing Task with `created = false` when one matches, otherwise
inserts a Task with a fresh id and returns it with `created = true`. A
missing required field makes the persistence layer raise — the spec: a
malformed payload leads to missing fields and an exception, reported as
500. -/
def create_unique_task (db : DB) (repository name : Option String) :
    Except Unit (Task × Bool × DB) :=
  match repository, name with
  | some r, some n =>
    match findTask db.store r n with
    | some t => Except.ok (t, false, db)
    | none =>
      let t : Task := ⟨db.nextId, some r, some n⟩
      Except.ok (t, true, ⟨db.store ++ [t], db.nextId + 1⟩)
  | _, _ => Except.error ()

/-- Outcomes of the external database collaborators that a handler cannot
control: whether `utils.create_db_session()` succeeds, whether the
persistence layer raises during the create call, and whether it raises
during a lookup call. -/
structure DBOracle where
  acquireOk : Bool
  createFails : Bool
  findFails : Bool
deriving Repr, DecidableEq

/-- The falcon response object: the fields the handlers assign. -/
structure Resp where
  status : Option Status := none
  body : Option String := none
  location : Option String := none
deriving Repr, DecidableEq

/-- Result of running a database-touching handler: the response, the database
afterwards, and the session lifecycle — whether a session was acquired,
whether `close_db_session` was invoked on it, whether the `finally` block
completed without raising, and whether an exception escaped the handler. -/
structure HandlerResult where
  resp : Resp
  db : DB
  sessionAcquired : Bool
  sessionClosed : Bool
  cleanupOk : Bool
  uncaught : Bool
deriving Repr, DecidableEq

/-- The string `'/%s/task/%s/' % (resp, task.id)` assigned to
`resp.location` on the create success path: the source interpolates the
response object itself (its Python string rendering, here the parameter
`respStr`) as the first component and the task id as the second. -/
def mkLocation (respStr : String) (taskId : Nat) : String :=
  "/" ++ respStr ++ "/task/" ++ toString taskId ++ "/"

/-- Embedding of `TaskResource._create_new_task` (resources.py lines 56-75).
The whole body sits in `try`; a bare `except` sets 500; `finally` calls
`utils.close_db_session(session)`. When session acquisition itself raises,
the bare `except` still sets 500, but the `finally` block then references
the never-bound local `session` and raises `NameError`, which escapes the
handler: nothing is closed and the cleanup block does not complete. -/
def _create_new_task (o : DBOracle) (respStr : String) (resp : Resp) (db : DB)
    (repository name : Option String) : HandlerResult :=
  if o.acquireOk then
    match (if o.createFails then Except.error () else
        create_unique_task db repository name) with
    | Except.error _ =>
      ⟨{ resp with status := some 500 }, db, true, true, true, false⟩
    | Except.ok (task, created, db') =>
      let resp1 := { resp with status := some (if created then 201 else 409) }
      let resp2 := { resp1 with location := some (mkLocation respStr task.id) }
      ⟨resp2, db', true, true, true, false⟩
  else
    ⟨{ resp with status := some 500 }, db, false, false, false, true⟩

/-- Modelled from the spec: `Task.find_by_id` — lookup of a single Task by
the id captured from the URL (a string in the routing layer). -/
def find_by_id (store : Store) (tid : String) : Option Task :=
  store.find? (fun t => toString t.id == tid)

/-- Modelled from the spec: `Task.serialize` — the serialized form of a
single Task. The format is external to this repository; an injective
rendering stands in for it. -/
def Task.serialize (t : Task) : String :=
  "Task(" ++ toString t.id ++ ", " ++ t.repository.getD "null" ++ ", " ++
    t.name.getD "null" ++ ")"

/-- Modelled from the spec: `Task.serialize_tasks` — the serialized form of a
collection of Tasks. -/
def serialize_tasks (ts : List Task) : String :=
  "[" ++ String.intercalate ", " (ts.map Task.serialize) ++ "]"

/-- The collection branch of `on_get` (no task id): sets the body to the
serialized collection, then 200 when at least one Task exists, else 404. -/
def on_get_all (resp : Resp) (db : DB) : Resp :=
  let resp1 := { resp with body := some (serialize_tasks db.store) }
  if db.store.length > 0 then { resp1 with status := some 200 }
  else { resp1 with status := some 404 }

/-- The single-task branch of `on_get`: body and 200 when found, 404
otherwise. -/
def on_get_single (resp : Resp) (db : DB) (s : String) : Resp :=
  match find_by_id db.store s with
  | some task => { resp with body := some task.serialize, status := some 200 }
  | none => { resp with status := some 404 }

/-- Embedding of `TaskResource.on_get` (resources.py lines 77-111).
`task_id` is the optional URL parameter; `if task_id:` is Python truthiness,
so `None` and the empty string both select the collection branch. The
session lifecycle mirrors `_create_new_task`: the bare `except` maps any
exception from acquisition or lookup to 500, and the `finally` block raises
`NameError` when the session local was never bound. -/
def on_get (o : DBOracle) (resp : Resp) (db : DB) (task_id : Option String) :
    HandlerResult :=
  if o.acquireOk then
    if o.findFails then
      ⟨{ resp with status := some 500 }, db, true, true, true, false⟩
    else
      let r := match task_id with
        | some s => if s != "" then on_get_single resp db s else on_get_all resp db
        | none => on_get_all resp db
      ⟨r, db, true, true, true, false⟩
  else
    ⟨{ resp with status := some 500 }, db, false, false, false, true⟩

/-- One pass of the enqueue loop of `_execute_task`: iterate over the
indices of `range(0, times)`, collecting the `(task_id, operation)` message
of each successful `q.enqueue` call. The oracle `qfail = some i` means the
queue client raises at iteration `i`; the loop stops there and — there being
no `try` around it — the exception escapes. -/
def enqueueLoop (qfail : Option Nat) (job : String × String) :
    List Nat → List (String × String) × Bool
  | [] => ([], false)
  | i :: rest =>
    if qfail == some i then ([], true)
    else
      let r := enqueueLoop qfail job rest
      (job :: r.1, r.2)

/-- Result of `_execute_task`: the response, the jobs that reached the
queue, and whether an enqueue exception escaped. -/
structure ExecResult where
  resp : Resp
  jobs : List (String × String)
  uncaught : Bool
deriving Repr, DecidableEq

/-- Embedding of `TaskResource._execute_task` (resources.py lines 45-54):
sets 200 first, then enqueues one `(task_id, operation)` job per element of
`range(0, times)` — an empty range when `times ≤ 0`. No exception handling
surrounds the loop. -/
def _execute_task (qfail : Option Nat) (resp : Resp) (task_id : String)
    (times : Int) (operation : String) : ExecResult :=
  let resp1 := { resp with status := some 200 }
  let r := enqueueLoop qfail (task_id, operation) (List.range times.toNat)
  ⟨resp1, r.1, r.2⟩

/-- The mapping produced by `api_utils._raw_to_dict` from the request body:
one field per key the handler consults with `.get`, `none` when the key is
absent — also when the body itself was absent or malformed, since the spec
says parse failure degrades to an empty mapping. -/
structure Payload where
  operation : Option String := none
  times : Option Int := none
  repository : Option String := none
  name : Option String := none
deriving Repr, DecidableEq

/-- Result of `on_post`: the response, the database afterwards, the jobs
that reached the queue, and the session/exception bookkeeping of whichever
branch ran. -/
structure PostOutcome where
  resp : Resp
  db : DB
  jobs : List (String × String)
  sessionAcquired : Bool
  sessionClosed : Bool
  cleanupOk : Bool
  uncaught : Bool
deriving Repr, DecidableEq

/-- The create branch of `on_post` (no task id): extracts `repository` and
`name` with default `None` and delegates to `_create_new_task`. -/
def on_post_create (o : DBOracle) (respStr : String) (resp : Resp) (db : DB)
    (parsed_json : Payload) : PostOutcome :=
  let h := _create_new_task o respStr resp db parsed_json.repository
    parsed_json.name
  ⟨h.resp, h.db, [], h.sessionAcquired, h.sessionClosed, h.cleanupOk,
    h.uncaught⟩

/-- Embedding of `TaskResource.on_post` (resources.py lines 113-140):
`if task_id:` routes truthy ids to `_execute_task` with `operation`
defaulting to `"RUN"` and `times` to `1`, and everything else to
`_create_new_task`. The execute branch acquires no database session, and
`on_post` adds no exception handling of its own, so an enqueue exception
propagates to the caller. -/
def on_post (o : DBOracle) (qfail : Option Nat) (respStr : String)
    (resp : Resp) (db : DB) (task_id : Option String)
    (parsed_json : Payload) : PostOutcome :=
  match task_id with
  | some s =>
    if s != "" then
      let operation := parsed_json.operation.getD "RUN"
      let times := parsed_json.times.getD 1
      let e := _execute_task qfail resp s times operation
      ⟨e.resp, db, e.jobs, false, false, true, e.uncaught⟩
    else on_post_create o respStr resp db parsed_json
  | none => on_post_create o respStr resp db parsed_json

/-! ## Queue/redis configuration (`__init__` and `_create_queue`)

Python reference semantics matter here, so the dictionaries live in a small
heap addressed by indices. `config.DEFAULT` (the `config` module is not
among the sources; the spec calls it the global mutable queue/redis
configuration) is the dict at a fixed address, and
`self.redis_config = config.DEFAULT` stores that address — an alias, not a
copy. -/

/-- A Python dict with string keys and values. -/
abbrev Dict := List (String × String)

/-- `d[k] = v`: replace the value of an existing key, else append. -/
def dictSet (d : Dict) (k v : String) : Dict :=
  if d.any (fun p => p.1 == k) then
    d.map (fun p => if p.1 == k then (k, v) else p)
  else d ++ [(k, v)]

/-- `d.update(**kwargs)`: apply every keyword override in order. -/
def dictUpdate (d kwargs : Dict) : Dict :=
  kwargs.foldl (fun acc p => dictSet acc p.1 p.2) d

/-- The heap of live dicts; `defaultRef` is the address of the module-level
`config.DEFAULT`. -/
structure ConfigWorld where
  heap : List Dict
  defaultRef : Nat
deriving Repr, DecidableEq

/-- Read the dict at an address. -/
def ConfigWorld.get (w : ConfigWorld) (r : Nat) : Dict :=
  w.heap.getD r []

/-- Overwrite the dict at an address (in-place mutation of that object). -/
def ConfigWorld.set (w : ConfigWorld) (r : Nat) (d : Dict) : ConfigWorld :=
  ⟨w.heap.set r d, w.defaultRef⟩

/-- The piece of `TaskResource` state these lines touch: `self.redis_config`
holds a reference to a dict. -/
structure TaskResourceState where
  redis_config : Nat
deriving Repr, DecidableEq

/-- Embedding of `self.redis_config = config.DEFAULT` in
`TaskResource.__init__` (resources.py line 28): plain attribute assignment
binds the instance attribute to the very same dict object the module global
names — no copy is taken. -/
def TaskResource_init (w : ConfigWorld) : TaskResourceState :=
  ⟨w.defaultRef⟩

/-- Embedding of `TaskResource._create_queue` (resources.py lines 31-43) as
far as configuration goes: `self.redis_config.update(**kwargs)` mutates the
dict object `self.redis_config` refers to, in place. -/
def _create_queue (w : ConfigWorld) (s : TaskResourceState) (kwargs : Dict) :
    ConfigWorld :=
  w.set s.redis_config (dictUpdate (w.get s.redis_config) kwargs)

/-- No two rows of the store share the same (repository, name) pair. -/
def uniqueKeysB : Store → Bool
  | [] => true
  | t :: rest =>
    rest.all (fun u => !(t.repository == u.repository && t.name == u.name))
      && uniqueKeysB rest

/-! ## Helper lemmas -/

theorem findTask_cons (t : Task) (rest : Store) (r n : String) :
    findTask (t :: rest) r n =
      if t.repository == some r && t.name == some n then some t
      else findTask rest r n := by
  cases hp : (t.repository == some r && t.name == some n) <;>
    simp [findTask, List.find?, hp]

theorem uniqueKeysB_append (store : Store) (i : Nat) (r n : String)
    (hfind : findTask store r n = none) (hu : uniqueKeysB store = true) :
    uniqueKeysB (store ++ [⟨i, some r, some n⟩]) = true := by
  induction store with
  | nil => rfl
  | cons t rest ih =>
    rw [findTask_cons] at hfind
    by_cases hp : (t.repository == some r && t.name == some n) = true
    · simp [hp] at hfind
    · rw [Bool.not_eq_true] at hp
      rw [hp] at hfind
      simp only [if_neg Bool.false_ne_true] at hfind
      simp only [uniqueKeysB, Bool.and_eq_true] at hu
      rw [List.cons_append]
      simp only [uniqueKeysB, Bool.and_eq_true, List.all_append,
        List.all_cons, List.all_nil, Bool.and_true]
      refine ⟨⟨hu.1, ?_⟩, ih hfind hu.2⟩
      simp only [Bool.not_eq_true']
      exact hp

end Stevedore

namespace Stevedore

theorem enqueueLoop_none (job : String × String) (l : List Nat) :
    enqueueLoop none job l = (List.replicate l.length job, false) := by
  induction l with
  | nil => rfl
  | cons i rest ih =>
    have hb : ((none : Option Nat) == some i) = false := rfl
    simp [enqueueLoop, hb, ih, List.replicate]

theorem enqueueLoop_mem (job : String × String) (k : Nat) (l : List Nat)
    (hk : k ∈ l) : (enqueueLoop (some k) job l).2 = true := by
  induction l with
  | nil => cases hk
  | cons i rest ih =>
    by_cases he : k = i
    · subst he
      have hb : ((some k : Option Nat) == some k) = true := by simp
      simp [enqueueLoop, hb]
    · have hb : ((some k : Option Nat) == some i) = false := by
        exact beq_eq_false_iff_ne.mpr (fun hc => he (Option.some.inj hc))
      have hmem : k ∈ rest := by
        rcases List.mem_cons.mp hk with h | h
        · exact absurd h he
        · exact h
      simp [enqueueLoop, hb, ih hmem]

/-! ## Claims -/

/-- C1: for POST /task without a task id (handled by
`_create_new_task`), the response status is 201 when the (repository, name)
Task was newly created, 409 when an equivalent Task already existed, and
500 when any exception is raised during creation — including the
missing-field exception a malformed payload leads to. -/
theorem C1_create_task_statuses (o : DBOracle) (respStr : String)
    (resp : Resp) (db : DB) (repository name : Option String)
    (hacq : o.acquireOk = true) :
    ((o.createFails = true ∨ repository = none ∨ name = none) →
      (_create_new_task o respStr resp db repository name).resp.status =
        some 500) ∧
    (∀ r n, o.createFails = false → repository = some r → name = some n →
      ((findTask db.store r n = none →
        (_create_new_task o respStr resp db repository name).resp.status =
          some 201) ∧
       (∀ t, findTask db.store r n = some t →
        (_create_new_task o respStr resp db repository name).resp.status =
          some 409))) := by
  constructor
  · rintro (hc | hr | hn)
    · simp [_create_new_task, hacq, hc]
    · subst hr
      cases hc : o.createFails <;> cases name <;>
        simp [_create_new_task, create_unique_task, hacq, hc]
    · subst hn
      cases hc : o.createFails <;> cases repository <;>
        simp [_create_new_task, create_unique_task, hacq, hc]
  · rintro r n hc rfl rfl
    constructor
    · intro hfind
      simp [_create_new_task, create_unique_task, hacq, hc, hfind]
    · intro t hfind
      simp [_create_new_task, create_unique_task, hacq, hc, hfind]

theorem C1_create_task_statuses_witness :
    (⟨true, false, false⟩ : DBOracle).acquireOk = true ∧
    (_create_new_task ⟨true, false, false⟩ "R" {} ⟨[], 0⟩ (some "repo")
      (some "nm")).resp.status = some 201 :=
  ⟨rfl, ((C1_create_task_statuses ⟨true, false, false⟩ "R" {} ⟨[], 0⟩
      (some "repo") (some "nm") rfl).2 "repo" "nm" rfl rfl rfl).1 rfl⟩

/-- C3: creation preserves the invariant that no two Task rows share a
(repository, name) pair, and a duplicate creation attempt yields 409,
leaves the store unchanged, and returns the existing Task. -/
theorem C3_uniqueness_invariant (o : DBOracle) (respStr : String)
    (resp : Resp) (db : DB) (r n : String) (hacq : o.acquireOk = true)
    (hc : o.createFails = false) (hu : uniqueKeysB db.store = true) :
    uniqueKeysB (_create_new_task o respStr resp db (some r)
      (some n)).db.store = true ∧
    (∀ t, findTask db.store r n = some t →
      (_create_new_task o respStr resp db (some r) (some n)).db = db ∧
      (_create_new_task o respStr resp db (some r) (some n)).resp.status =
        some 409 ∧
      create_unique_task db (some r) (some n) = Except.ok (t, false, db)) := by
  cases hfind : findTask db.store r n with
  | none =>
    refine ⟨?_, ?_⟩
    · have hdb : (_create_new_task o respStr resp db (some r)
          (some n)).db.store = db.store ++ [⟨db.nextId, some r, some n⟩] := by
        simp [_create_new_task, create_unique_task, hacq, hc, hfind]
      rw [hdb]
      exact uniqueKeysB_append db.store db.nextId r n hfind hu
    · intro t ht
      cases ht
  | some t =>
    have hcreate : create_unique_task db (some r) (some n) =
        Except.ok (t, false, db) := by
      simp [create_unique_task, hfind]
    refine ⟨?_, ?_⟩
    · have hdb : (_create_new_task o respStr resp db (some r)
          (some n)).db = db := by
        simp [_create_new_task, hacq, hc, hcreate]
      rw [hdb]
      exact hu
    · intro t' ht'
      have ht : t = t' := Option.some.inj ht'
      subst ht
      refine ⟨?_, ?_, hcreate⟩ <;>
        simp [_create_new_task, hacq, hc, hcreate]

theorem C3_uniqueness_invariant_witness :
    (⟨true, false, false⟩ : DBOracle).acquireOk = true ∧
    (⟨true, false, false⟩ : DBOracle).createFails = false ∧
    uniqueKeysB [⟨0, some "r", some "n"⟩] = true ∧
    (_create_new_task ⟨true, false, false⟩ "R" {}
      ⟨[⟨0, some "r", some "n"⟩], 1⟩ (some "r") (some "n")).db =
      ⟨[⟨0, some "r", some "n"⟩], 1⟩ :=
  ⟨rfl, rfl, rfl,
    ((C3_uniqueness_invariant ⟨true, false, false⟩ "R" {}
      ⟨[⟨0, some "r", some "n"⟩], 1⟩ "r" "n" rfl rfl rfl).2
      ⟨0, some "r", some "n"⟩ rfl).1⟩

/-- C4: GET /task without a task id returns the Tasks serialized as a
collection, with status 200 when at least one Task exists, 404 when the
store is empty, and 500 when the lookup raises. -/
theorem C4_get_all_statuses (o : DBOracle) (resp : Resp) (db : DB)
    (hacq : o.acquireOk = true) :
    (o.findFails = true → (on_get o resp db none).resp.status = some 500) ∧
    (o.findFails = false →
      (on_get o resp db none).resp.body = some (serialize_tasks db.store) ∧
      (db.store ≠ [] → (on_get o resp db none).resp.status = some 200) ∧
      (db.store = [] → (on_get o resp db none).resp.status = some 404)) := by
  refine ⟨fun hf => by simp [on_get, hacq, hf], fun hf => ⟨?_, ?_, ?_⟩⟩
  · cases hl : db.store.length <;>
      simp [on_get, on_get_all, hacq, hf, hl]
  · intro hne
    have hpos : 0 < db.store.length := List.length_pos.mpr hne
    simp [on_get, on_get_all, hacq, hf, hpos]
  · intro he
    simp [on_get, on_get_all, hacq, hf, he]

theorem C4_get_all_statuses_witness :
    (⟨true, false, false⟩ : DBOracle).acquireOk = true ∧
    (on_get ⟨true, false, false⟩ {} ⟨[], 0⟩ none).resp.status = some 404 :=
  ⟨rfl,
    ((C4_get_all_statuses ⟨true, false, false⟩ {} ⟨[], 0⟩ rfl).2 rfl).2.2 rfl⟩

/-- C5: GET /task/{id} responds 200 with the serialized Task as body when a
Task with that id exists, 404 when none does, and 500 when the lookup
raises. -/
theorem C5_get_single_statuses (o : DBOracle) (resp : Resp) (db : DB)
    (s : String) (hs : s ≠ "") (hacq : o.acquireOk = true) :
    (o.findFails = true →
      (on_get o resp db (some s)).resp.status = some 500) ∧
    (o.findFails = false →
      (∀ t, find_by_id db.store s = some t →
        (on_get o resp db (some s)).resp.status = some 200 ∧
        (on_get o resp db (some s)).resp.body = some t.serialize) ∧
      (find_by_id db.store s = none →
        (on_get o resp db (some s)).resp.status = some 404)) := by
  have hsb : (s != "") = true := bne_iff_ne.mpr hs
  refine ⟨fun hf => by simp [on_get, hacq, hf], fun hf => ⟨?_, ?_⟩⟩
  · intro t ht
    constructor <;> simp [on_get, on_get_single, hacq, hf, hsb, ht]
  · intro hn
    simp [on_get, on_get_single, hacq, hf, hsb, hn]

theorem C5_get_single_statuses_witness :
    ("5" : String) ≠ "" ∧
    (⟨true, false, false⟩ : DBOracle).acquireOk = true ∧
    (on_get ⟨true, false, false⟩ {} ⟨[], 0⟩ (some "5")).resp.status =
      some 404 :=
  ⟨by decide, rfl,
    ((C5_get_single_statuses ⟨true, false, false⟩ {} ⟨[], 0⟩ "5" (by decide)
      rfl).2 rfl).2 rfl⟩

/-- C8 counterexample: when `utils.create_db_session()` itself raises, the
claim's guaranteed cleanup does not happen — the `finally` block references
the never-bound local `session`, so nothing is closed, the cleanup block
does not complete, and a `NameError` escapes the handler. -/
theorem C8_counterexample :
    (on_get ⟨false, false, false⟩ {} ⟨[], 0⟩ none).sessionClosed = false ∧
    (on_get ⟨false, false, false⟩ {} ⟨[], 0⟩ none).cleanupOk = false ∧
    (on_get ⟨false, false, false⟩ {} ⟨[], 0⟩ none).uncaught = true := by
  decide

/-- C8 amended: whenever the session is actually acquired, it is released in
the `finally` block on every outcome (found, not found, empty store,
exception during the database-touching logic) for GET /task, GET /task/{id}
and POST /task creation; only when acquisition itself raises does the
cleanup block fail. -/
theorem C8_session_released (o : DBOracle) (resp : Resp) (db : DB)
    (task_id : Option String) (respStr : String)
    (repository name : Option String) (hacq : o.acquireOk = true) :
    ((on_get o resp db task_id).sessionClosed = true ∧
     (on_get o resp db task_id).cleanupOk = true) ∧
    ((_create_new_task o respStr resp db repository name).sessionClosed =
       true ∧
     (_create_new_task o respStr resp db repository name).cleanupOk =
       true) := by
  constructor
  · cases hf : o.findFails <;> constructor <;> simp [on_get, hacq, hf]
  · cases hc : o.createFails
    · cases hcr : create_unique_task db repository name with
      | error e =>
        constructor <;> simp [_create_new_task, hacq, hc, hcr]
      | ok v =>
        obtain ⟨task, created, db'⟩ := v
        constructor <;> simp [_create_new_task, hacq, hc, hcr]
    · constructor <;> simp [_create_new_task, hacq, hc]

theorem C8_session_released_witness :
    (⟨true, true, true⟩ : DBOracle).acquireOk = true ∧
    (on_get ⟨true, true, true⟩ {} ⟨[], 0⟩ none).sessionClosed = true ∧
    (_create_new_task ⟨true, true, true⟩ "R" {} ⟨[], 0⟩ none
      none).sessionClosed = true :=
  ⟨rfl,
    (C8_session_released ⟨true, true, true⟩ {} ⟨[], 0⟩ none "R" none none
      rfl).1.1,
    (C8_session_released ⟨true, true, true⟩ {} ⟨[], 0⟩ none "R" none none
      rfl).2.1⟩

/-- C2 counterexample: with a payload carrying `times = -1`, the handler
enqueues no job at all, so it does not enqueue exactly `times` jobs — the
job count is 0, not -1. -/
theorem C2_counterexample :
    (on_post ⟨true, false, false⟩ none "R" {} ⟨[], 0⟩ (some "7")
      { times := some (-1) }).jobs = [] ∧
    ¬(((on_post ⟨true, false, false⟩ none "R" {} ⟨[], 0⟩ (some "7")
      { times := some (-1) }).jobs.length : Int) = (-1 : Int)) := by
  decide

/-- C2 amended: for every POST /task/{id} request whose enqueue calls all
succeed, the handler enqueues exactly `max(times, 0)` jobs — so exactly
`times` whenever `times ≥ 0` — each carrying the same `(task_id, operation)`
pair, with `operation` read from the payload with default `"RUN"` and
`times` with default `1` when the body is absent or lacks those keys. -/
theorem C2_execute_enqueues (o : DBOracle) (resp : Resp) (respStr : String)
    (db : DB) (s : String) (p : Payload) (hs : s ≠ "") :
    (on_post o none respStr resp db (some s) p).jobs =
      List.replicate (p.times.getD 1).toNat (s, p.operation.getD "RUN") ∧
    ((on_post o none respStr resp db (some s) p).jobs.length : Int) =
      max (p.times.getD 1) 0 := by
  have hsb : (s != "") = true := bne_iff_ne.mpr hs
  have hjobs : (on_post o none respStr resp db (some s) p).jobs =
      List.replicate (p.times.getD 1).toNat (s, p.operation.getD "RUN") := by
    simp [on_post, _execute_task, hsb, enqueueLoop_none, List.length_range]
  refine ⟨hjobs, ?_⟩
  rw [hjobs, List.length_replicate]
  exact Int.toNat_eq_max _

theorem C2_execute_enqueues_witness :
    ("7" : String) ≠ "" ∧
    (on_post ⟨true, false, false⟩ none "R" {} ⟨[], 0⟩ (some "7")
      (Payload.mk none (some 3) none none)).jobs =
      List.replicate 3 ("7", "RUN") :=
  ⟨by decide,
    (C2_execute_enqueues ⟨true, false, false⟩ {} "R" ⟨[], 0⟩ "7"
      (Payload.mk none (some 3) none none) (by decide)).1⟩

/-- C6: POST /task/{id} sets status 200 regardless of queue-submission
outcome (the status is assigned before the loop), and there is no
error-handling path: when an enqueue call raises, the exception is not
caught in this layer and propagates to the caller. -/
theorem C6_execute_status_and_propagation (o : DBOracle)
    (qfail : Option Nat) (respStr : String) (resp : Resp) (db : DB)
    (s : String) (p : Payload) (hs : s ≠ "") :
    (on_post o qfail respStr resp db (some s) p).resp.status = some 200 ∧
    (∀ k, qfail = some k → k < (p.times.getD 1).toNat →
      (on_post o qfail respStr resp db (some s) p).uncaught = true) := by
  have hsb : (s != "") = true := bne_iff_ne.mpr hs
  constructor
  · simp [on_post, _execute_task, hsb]
  · rintro k rfl hk
    have hloop := enqueueLoop_mem (s, p.operation.getD "RUN") k
      (List.range (p.times.getD 1).toNat) (List.mem_range.mpr hk)
    simp [on_post, _execute_task, hsb, hloop]

theorem C6_execute_status_and_propagation_witness :
    ("7" : String) ≠ "" ∧
    (on_post ⟨true, false, false⟩ (some 0) "R" {} ⟨[], 0⟩ (some "7")
      (Payload.mk none (some 2) none none)).resp.status = some 200 ∧
    (on_post ⟨true, false, false⟩ (some 0) "R" {} ⟨[], 0⟩ (some "7")
      (Payload.mk none (some 2) none none)).uncaught = true :=
  ⟨by decide,
    (C6_execute_status_and_propagation ⟨true, false, false⟩ (some 0) "R" {}
      ⟨[], 0⟩ "7" (Payload.mk none (some 2) none none) (by decide)).1,
    (C6_execute_status_and_propagation ⟨true, false, false⟩ (some 0) "R" {}
      ⟨[], 0⟩ "7" (Payload.mk none (some 2) none none) (by decide)).2 0 rfl
      (by decide)⟩

/-- C10: a POST /task/{id} payload whose `times` is zero or negative makes
`range(0, times)` empty, so no job is enqueued, no enqueue exception can
occur, and the status — assigned before the loop — is still 200. -/
theorem C10_nonpositive_times (o : DBOracle) (qfail : Option Nat)
    (respStr : String) (resp : Resp) (db : DB) (s : String) (p : Payload)
    (t : Int) (hs : s ≠ "") (ht : p.times = some t) (hle : t ≤ 0) :
    (on_post o qfail respStr resp db (some s) p).jobs = [] ∧
    (on_post o qfail respStr resp db (some s) p).resp.status = some 200 ∧
    (on_post o qfail respStr resp db (some s) p).uncaught = false := by
  have hsb : (s != "") = true := bne_iff_ne.mpr hs
  have htn : (p.times.getD 1).toNat = 0 := by
    rw [ht]
    exact Int.toNat_of_nonpos hle
  refine ⟨?_, ?_, ?_⟩ <;>
    simp [on_post, _execute_task, hsb, htn, enqueueLoop, List.range_zero]

theorem C10_nonpositive_times_witness :
    ("7" : String) ≠ "" ∧
    (Payload.mk none (some (-3)) none none).times = some (-3) ∧
    ((-3 : Int) ≤ 0) ∧
    (on_post ⟨true, false, false⟩ none "R" {} ⟨[], 0⟩ (some "7")
      (Payload.mk none (some (-3)) none none)).jobs = [] :=
  ⟨by decide, rfl, by decide,
    (C10_nonpositive_times ⟨true, false, false⟩ none "R" {} ⟨[], 0⟩ "7"
      (Payload.mk none (some (-3)) none none) (-3) (by decide) rfl
      (by decide)).1⟩

/-- C7 counterexample: the newly created Task's id IS referenced in the
materialized location value — creating on an empty store with next id 7
yields the location "/RESP/task/7/" (the id is the second interpolated
component), and changing only the id changes the value. -/
theorem C7_counterexample :
    (_create_new_task ⟨true, false, false⟩ "RESP" {} ⟨[], 7⟩ (some "r")
      (some "n")).resp.location = some "/RESP/task/7/" ∧
    (_create_new_task ⟨true, false, false⟩ "RESP" {} ⟨[], 8⟩ (some "r")
      (some "n")).resp.location ≠
      (_create_new_task ⟨true, false, false⟩ "RESP" {} ⟨[], 7⟩ (some "r")
        (some "n")).resp.location := by
  decide

/-- C7 amended: on the POST /task success path the handler materializes
`resp.location` from `'/%s/task/%s/' % (resp, task.id)`: the first
component is — incorrectly — the response object's own string rendering
rather than anything meaningful, but the returned Task's id is interpolated
as the second component, so the id does appear in the value. -/
theorem C7_location_format (o : DBOracle) (respStr : String) (resp : Resp)
    (db : DB) (repository name : Option String) (task : Task)
    (created : Bool) (db' : DB) (hacq : o.acquireOk = true)
    (hc : o.createFails = false)
    (hok : create_unique_task db repository name =
      Except.ok (task, created, db')) :
    (_create_new_task o respStr resp db repository name).resp.location =
      some ("/" ++ respStr ++ "/task/" ++ toString task.id ++ "/") := by
  simp [_create_new_task, mkLocation, hacq, hc, hok]

theorem C7_location_format_witness :
    (⟨true, false, false⟩ : DBOracle).acquireOk = true ∧
    (⟨true, false, false⟩ : DBOracle).createFails = false ∧
    create_unique_task ⟨[], 7⟩ (some "r") (some "n") =
      Except.ok (⟨7, some "r", some "n"⟩, true,
        ⟨[⟨7, some "r", some "n"⟩], 8⟩) ∧
    (_create_new_task ⟨true, false, false⟩ "RESP" {} ⟨[], 7⟩ (some "r")
      (some "n")).resp.location =
      some ("/" ++ "RESP" ++ "/task/" ++ toString 7 ++ "/") :=
  ⟨rfl, rfl, rfl,
    C7_location_format ⟨true, false, false⟩ "RESP" {} ⟨[], 7⟩ (some "r")
      (some "n") ⟨7, some "r", some "n"⟩ true ⟨[⟨7, some "r", some "n"⟩], 8⟩
      rfl rfl rfl⟩

/-- C9 counterexample: the global configuration is aliased, not copied —
with `config.DEFAULT` being the dict at address 0 holding
host ↦ localhost, a TaskResource instance binds that same dict, and
applying `_create_queue`'s keyword override through the instance changes
the shared global default (and thus what any other instance, whose
`redis_config` also holds address 0, reads). -/
theorem C9_counterexample :
    (TaskResource_init ⟨[[("host", "localhost")]], 0⟩).redis_config = 0 ∧
    (_create_queue ⟨[[("host", "localhost")]], 0⟩
      (TaskResource_init ⟨[[("host", "localhost")]], 0⟩)
      [("host", "example")]).get 0 = [("host", "example")] ∧
    ([("host", "example")] : Dict) ≠ [("host", "localhost")] := by
  decide

/-- C9 amended: `self.redis_config = config.DEFAULT` aliases the global
dict rather than copying it, so the keyword overrides `_create_queue`
applies mutate the one shared dict in place: afterwards the global default
holds the updated configuration, and every instance — the updating one and
any other created the same way — reads that same updated value. -/
theorem C9_config_shared (w : ConfigWorld) (kwargs : Dict)
    (hr : w.defaultRef < w.heap.length) :
    (TaskResource_init w).redis_config = w.defaultRef ∧
    (_create_queue w (TaskResource_init w) kwargs).get w.defaultRef =
      dictUpdate (w.get w.defaultRef) kwargs ∧
    (_create_queue w (TaskResource_init w) kwargs).get
        (TaskResource_init w).redis_config =
      (_create_queue w (TaskResource_init w) kwargs).get w.defaultRef := by
  refine ⟨rfl, ?_, rfl⟩
  show (w.heap.set w.defaultRef
      (dictUpdate (w.heap.getD w.defaultRef []) kwargs)).getD w.defaultRef []
    = dictUpdate (w.heap.getD w.defaultRef []) kwargs
  rw [List.getD_eq_getElem _ _ (by simpa using hr)]
  simp

theorem C9_config_shared_witness :
    (0 : Nat) < ([[("host", "localhost")]] : List Dict).length ∧
    (_create_queue ⟨[[("host", "localhost")]], 0⟩
      (TaskResource_init ⟨[[("host", "localhost")]], 0⟩)
      [("port", "6379")]).get 0 =
      dictUpdate ((⟨[[("host", "localhost")]], 0⟩ : ConfigWorld).get 0)
        [("port", "6379")] :=
  ⟨by decide,
    (C9_config_shared ⟨[[("host", "localhost")]], 0⟩ [("port", "6379")]
      (by decide)).2.1⟩

end Stevedore
